import Mathlib

/-!
Verification of the MOS 6502 emulator sources.

The definitions below are shallow embeddings of the Rust sources:
`src/status.rs` (status register), `src/addressing.rs` (addressing modes),
`src/bus.rs` (bus word reads), `src/instructions/*.rs` (instruction
semantics) and `src/instructions/mod.rs` (the opcode table).  Machine
integers (`u8`, `u16`) are embedded as `Nat` with explicit `% 256` /
`% 65536` at every point where the Rust code wraps.  The CPU struct from
`src/cpu.rs` is not part of the sources; its stack discipline, reset
sequence and fetch/decode loop are modelled from the specification and
are marked as such in their doc comments.
-/

set_option maxRecDepth 10000

namespace Mos6502

/-- Flag bit positions of the status register (src/status.rs, `enum Flag`,
`repr(u8)` discriminants 0..7). -/
inductive Flag where
  | Carry
  | Zero
  | InterruptDisable
  | DecimalMode
  | Break
  | Unused
  | Overflow
  | Negative
deriving DecidableEq

/-- The `flag as u8` discriminant of src/status.rs. -/
def Flag.bit : Flag → Nat
  | .Carry => 0
  | .Zero => 1
  | .InterruptDisable => 2
  | .DecimalMode => 3
  | .Break => 4
  | .Unused => 5
  | .Overflow => 6
  | .Negative => 7

/-- The 6502 processor status register (src/status.rs, `struct StatusRegister`).
The `flags` byte is a `Nat` kept below 256 by all the operations below. -/
structure StatusRegister where
  flags : Nat
deriving DecidableEq

/-- src/status.rs `StatusRegister::INITIAL_VALUE = 0b00110100`. -/
def StatusRegister.INITIAL_VALUE : Nat := 0b00110100

/-- src/status.rs `StatusRegister::new`. -/
def StatusRegister.new : StatusRegister := ⟨StatusRegister.INITIAL_VALUE⟩

/-- src/status.rs `StatusRegister::set`: `flags |= 1 << n` / `flags &= !(1 << n)`
(the `u8` complement of `1 << n` is `0xFF ^ (1 << n)`). -/
def StatusRegister.set (s : StatusRegister) (flag : Flag) (value : Bool) : StatusRegister :=
  if value then ⟨s.flags ||| (1 <<< flag.bit)⟩
  else ⟨s.flags &&& (0xFF ^^^ (1 <<< flag.bit))⟩

/-- src/status.rs `StatusRegister::get`: `(flags & (1 << n)) != 0`. -/
def StatusRegister.get (s : StatusRegister) (flag : Flag) : Bool :=
  (s.flags &&& (1 <<< flag.bit)) != 0

/-- src/status.rs `StatusRegister::to_byte`. -/
def StatusRegister.to_byte (s : StatusRegister) : Nat := s.flags

/-- src/status.rs `StatusRegister::from_byte`: overwrites all bits verbatim. -/
def StatusRegister.from_byte (_s : StatusRegister) (value : Nat) : StatusRegister :=
  ⟨value⟩

/-- src/status.rs `StatusRegister::update_zero_negative`. -/
def StatusRegister.update_zero_negative (s : StatusRegister) (value : Nat) : StatusRegister :=
  (s.set Flag.Zero (value == 0)).set Flag.Negative ((value &&& 0x80) != 0)

theorem Flag.bit_lt (f : Flag) : f.bit < 8 := by cases f <;> decide

theorem Flag.bit_inj {f g : Flag} (h : f.bit = g.bit) : f = g := by
  cases f <;> cases g <;> simp_all [Flag.bit]

theorem StatusRegister.get_eq_testBit (s : StatusRegister) (f : Flag) :
    s.get f = s.flags.testBit f.bit := by
  rw [StatusRegister.get, Nat.one_shiftLeft, Nat.and_two_pow]
  cases h : s.flags.testBit f.bit <;>
    simp [h, (Nat.two_pow_pos f.bit).ne']

theorem testBit_or_one_shift (x n m : Nat) :
    (x ||| (1 <<< n)).testBit m = (x.testBit m || decide (n = m)) := by
  rw [Nat.one_shiftLeft]
  simp [Nat.testBit_two_pow]

theorem testBit_and_mask (x n m : Nat) (hm : m < 8) :
    (x &&& (0xFF ^^^ (1 <<< n))).testBit m = (x.testBit m && !decide (n = m)) := by
  rw [Nat.one_shiftLeft, Nat.testBit_and, Nat.testBit_xor,
    show (0xFF : Nat) = 2 ^ 8 - 1 from rfl, Nat.testBit_two_pow_sub_one,
    Nat.testBit_two_pow]
  simp [hm]

/-- Reading a flag after writing a (possibly different) flag. -/
theorem StatusRegister.get_set (s : StatusRegister) (f : Flag) (b : Bool) (g : Flag) :
    (s.set f b).get g = if g = f then b else s.get g := by
  cases b with
  | true =>
    rw [StatusRegister.get_eq_testBit, StatusRegister.get_eq_testBit]
    show (s.flags ||| (1 <<< f.bit)).testBit g.bit = _
    rw [testBit_or_one_shift]
    by_cases h : g = f
    · subst h; simp
    · have hb : f.bit ≠ g.bit := fun hc => h (Flag.bit_inj hc).symm
      simp [h, hb]
  | false =>
    rw [StatusRegister.get_eq_testBit, StatusRegister.get_eq_testBit]
    show (s.flags &&& (0xFF ^^^ (1 <<< f.bit))).testBit g.bit = _
    rw [testBit_and_mask _ _ _ g.bit_lt]
    by_cases h : g = f
    · subst h; simp
    · have hb : f.bit ≠ g.bit := fun hc => h (Flag.bit_inj hc).symm
      simp [h, hb]

/-- 64 KiB flat memory (src/bus.rs `SimpleBus`), as a function from addresses
to byte values; all callers pass addresses already reduced modulo 65536. -/
def memWrite (m : Nat → Nat) (address value : Nat) : Nat → Nat :=
  fun a => if a = address then value else m a

/-- src/bus.rs `Bus::read_word` (default implementation): low byte at `addr`,
high byte at `addr.wrapping_add(1)`, `(high << 8) | low`. -/
def readWord (m : Nat → Nat) (address : Nat) : Nat :=
  let low := m address
  let high := m ((address + 1) % 65536)
  (high <<< 8) ||| low

/-- The CPU state.  The register complement and its observable fields are
fixed by the spec (§3, §6); `mem` stands for the owned bus. -/
structure Cpu where
  a : Nat
  x : Nat
  y : Nat
  sp : Nat
  pc : Nat
  status : StatusRegister
  cycles : Nat
  mem : Nat → Nat

/-- Modelled from the spec: `Cpu::push_byte` lives in src/cpu.rs, which is
absent from the sources.  Spec §4.5: write to `0x0100 + SP`, then
`SP = (SP - 1) mod 256`. -/
def Cpu.push_byte (s : Cpu) (value : Nat) : Cpu :=
  { s with mem := memWrite s.mem (0x100 + s.sp) value, sp := (s.sp + 255) % 256 }

/-- Modelled from the spec: `Cpu::pull_byte` lives in src/cpu.rs, which is
absent from the sources.  Spec §4.5: `SP = (SP + 1) mod 256`, then read
`0x0100 + SP`. -/
def Cpu.pull_byte (s : Cpu) : Nat × Cpu :=
  let sp1 := (s.sp + 1) % 256
  (s.mem (0x100 + sp1), { s with sp := sp1 })

/-- Modelled from the spec: `Cpu::push_word` lives in src/cpu.rs, which is
absent from the sources.  Spec §4.5: push high, then push low. -/
def Cpu.push_word (s : Cpu) (w : Nat) : Cpu :=
  (s.push_byte (w / 256 % 256)).push_byte (w % 256)

/-- Modelled from the spec: `Cpu::pull_word` lives in src/cpu.rs, which is
absent from the sources.  Spec §4.5: pull low, then pull high. -/
def Cpu.pull_word (s : Cpu) : Nat × Cpu :=
  let r1 := s.pull_byte
  let r2 := r1.2.pull_byte
  ((r2.1 <<< 8) ||| r1.1, r2.2)

/-- Modelled from the spec: `Cpu::reset` lives in src/cpu.rs, which is absent
from the sources.  Spec §4.6 and invariant §3.6: load PC from `0xFFFC`, set
`SP = 0xFD`, clear `A, X, Y`, seed `cycles = 7`; the status byte is the
`StatusRegister::new` initial value of src/status.rs. -/
def Cpu.reset (s : Cpu) : Cpu :=
  { s with pc := readWord s.mem 0xFFFC, sp := 0xFD, a := 0, x := 0, y := 0,
           status := StatusRegister.new, cycles := 7 }

/-- src/instructions/stack.rs `pha`. -/
def Cpu.pha (s : Cpu) : Cpu := s.push_byte s.a

/-- src/instructions/stack.rs `pla`. -/
def Cpu.pla (s : Cpu) : Cpu :=
  let r := s.pull_byte
  { r.2 with a := r.1, status := r.2.status.update_zero_negative r.1 }

/-- src/instructions/stack.rs `php`: pushes `to_byte() | 0x10`. -/
def Cpu.php (s : Cpu) : Cpu := s.push_byte (s.status.to_byte ||| 0x10)

/-- src/instructions/stack.rs `plp`: `from_byte((status & 0xEF) | 0x20)`. -/
def Cpu.plp (s : Cpu) : Cpu :=
  let r := s.pull_byte
  { r.2 with status := r.2.status.from_byte ((r.1 &&& 0xEF) ||| 0x20) }

/-- src/instructions/arithmetic.rs `adc`: 16-bit sum `A + M + C`, overflow
from `(A ^ result) & (M ^ result) & 0x80`. -/
def Cpu.adc (s : Cpu) (value : Nat) : Cpu :=
  let carry : Nat := if s.status.get Flag.Carry then 1 else 0
  let result := s.a + value + carry
  let r8 := result % 256
  let overflow := ((s.a ^^^ r8) &&& (value ^^^ r8) &&& 0x80) != 0
  { s with a := r8,
           status := (((s.status.set Flag.Carry (decide (0xFF < result))).set
             Flag.Overflow overflow).update_zero_negative r8) }

/-- src/instructions/shift_rotate.rs `rol_acc`; the `u8` shift
`(self.a << 1) | old_carry` truncates to 8 bits. -/
def Cpu.rol_acc (s : Cpu) : Cpu :=
  let old_carry : Nat := if s.status.get Flag.Carry then 1 else 0
  let new_carry := (s.a &&& 0x80) != 0
  let a1 := ((s.a <<< 1) % 256) ||| old_carry
  { s with a := a1,
           status := (s.status.set Flag.Carry new_carry).update_zero_negative a1 }

/-- src/instructions/shift_rotate.rs `ror_acc`. -/
def Cpu.ror_acc (s : Cpu) : Cpu :=
  let old_carry : Nat := if s.status.get Flag.Carry then 0x80 else 0
  let new_carry := (s.a &&& 0x01) != 0
  let a1 := (s.a >>> 1) ||| old_carry
  { s with a := a1,
           status := (s.status.set Flag.Carry new_carry).update_zero_negative a1 }

/-- src/instructions/flow_control.rs `jmp`. -/
def Cpu.jmp (s : Cpu) (address : Nat) : Cpu := { s with pc := address }

/-- src/instructions/flow_control.rs `jsr`: push `PC.wrapping_sub(1)`, set
`PC = address`. -/
def Cpu.jsr (s : Cpu) (address : Nat) : Cpu :=
  let return_addr := (s.pc + 65535) % 65536
  { s.push_word return_addr with pc := address }

/-- src/instructions/flow_control.rs `rts`: pull PC, `PC = PC + 1`. -/
def Cpu.rts (s : Cpu) : Cpu :=
  let r := s.pull_word
  { r.2 with pc := (r.1 + 1) % 65536 }

/-- src/instructions/flow_control.rs `brk`: push `PC.wrapping_add(1)`, push
status with B set, set I, load PC from `0xFFFE`. -/
def Cpu.brk (s : Cpu) : Cpu :=
  let return_addr := (s.pc + 1) % 65536
  let s1 := s.push_word return_addr
  let s2 := s1.push_byte (s1.status.to_byte ||| 0x10)
  let s3 := { s2 with status := s2.status.set Flag.InterruptDisable true }
  { s3 with pc := readWord s3.mem 0xFFFE }

/-- src/instructions/flow_control.rs `rti`: pull status (ignore B, force
Unused), then pull PC. -/
def Cpu.rti (s : Cpu) : Cpu :=
  let r := s.pull_byte
  let s2 := { r.2 with status := r.2.status.from_byte ((r.1 &&& 0xEF) ||| 0x20) }
  let r2 := s2.pull_word
  { r2.2 with pc := r2.1 }

/-- src/instructions/flow_control.rs `branch`: `offset as i8 as u16` is the
16-bit sign extension; returns the extra cycles (0 not taken, 1 taken,
2 taken across a page boundary). -/
def Cpu.branch (s : Cpu) (condition : Bool) (offset : Nat) : Cpu × Nat :=
  if condition then
    let signed := if offset < 128 then offset else offset + 0xFF00
    let newPc := (s.pc + signed) % 65536
    ({ s with pc := newPc },
     if (s.pc &&& 0xFF00) ≠ (newPc &&& 0xFF00) then 2 else 1)
  else (s, 0)

/-- src/instructions/flow_control.rs `bcc`. -/
def Cpu.bcc (s : Cpu) (offset : Nat) : Cpu × Nat :=
  s.branch (!(s.status.get Flag.Carry)) offset

/-- src/instructions/flow_control.rs `bcs`. -/
def Cpu.bcs (s : Cpu) (offset : Nat) : Cpu × Nat :=
  s.branch (s.status.get Flag.Carry) offset

/-- src/instructions/flow_control.rs `beq`. -/
def Cpu.beq (s : Cpu) (offset : Nat) : Cpu × Nat :=
  s.branch (s.status.get Flag.Zero) offset

/-- src/instructions/flow_control.rs `bne`. -/
def Cpu.bne (s : Cpu) (offset : Nat) : Cpu × Nat :=
  s.branch (!(s.status.get Flag.Zero)) offset

/-- src/instructions/flow_control.rs `bmi`. -/
def Cpu.bmi (s : Cpu) (offset : Nat) : Cpu × Nat :=
  s.branch (s.status.get Flag.Negative) offset

/-- src/instructions/flow_control.rs `bpl`. -/
def Cpu.bpl (s : Cpu) (offset : Nat) : Cpu × Nat :=
  s.branch (!(s.status.get Flag.Negative)) offset

/-- src/instructions/flow_control.rs `bvc`. -/
def Cpu.bvc (s : Cpu) (offset : Nat) : Cpu × Nat :=
  s.branch (!(s.status.get Flag.Overflow)) offset

/-- src/instructions/flow_control.rs `bvs`. -/
def Cpu.bvs (s : Cpu) (offset : Nat) : Cpu × Nat :=
  s.branch (s.status.get Flag.Overflow) offset

/-- src/addressing.rs `enum AddressingMode`. -/
inductive AddressingMode where
  | Implied
  | Accumulator
  | Immediate
  | ZeroPage
  | ZeroPageX
  | ZeroPageY
  | Absolute
  | AbsoluteX
  | AbsoluteY
  | IndirectX
  | IndirectY
  | Indirect
  | Relative
deriving DecidableEq

/-- src/addressing.rs `AddressingMode::operand_bytes`. -/
def AddressingMode.operand_bytes : AddressingMode → Nat
  | .Implied | .Accumulator => 0
  | .Immediate | .ZeroPage | .ZeroPageX | .ZeroPageY
  | .IndirectX | .IndirectY | .Relative => 1
  | .Absolute | .AbsoluteX | .AbsoluteY | .Indirect => 2

/-- src/instructions/mod.rs `struct Opcode`. -/
structure Opcode where
  code : Nat
  mnemonic : String
  mode : AddressingMode
  bytes : Nat
  cycles : Nat
  page_boundary_cycle : Bool
deriving DecidableEq

/-- The illegal-opcode sentinel of src/instructions/mod.rs
`create_opcode_table`. -/
def illegalOpcode : Opcode := ⟨0x00, "???", AddressingMode.Implied, 1, 2, false⟩

/-- src/instructions/mod.rs `create_opcode_table`: fill with the illegal
sentinel, then overwrite the legal entries. -/
def create_opcode_table : Array Opcode :=
  ((Array.mkArray 256 illegalOpcode).set!
    0xA9 ⟨0xA9, "LDA", .Immediate, 2, 2, false⟩ |>.set!
    0xA5 ⟨0xA5, "LDA", .ZeroPage, 2, 3, false⟩ |>.set!
    0xB5 ⟨0xB5, "LDA", .ZeroPageX, 2, 4, false⟩ |>.set!
    0xAD ⟨0xAD, "LDA", .Absolute, 3, 4, false⟩ |>.set!
    0xBD ⟨0xBD, "LDA", .AbsoluteX, 3, 4, true⟩ |>.set!
    0xB9 ⟨0xB9, "LDA", .AbsoluteY, 3, 4, true⟩ |>.set!
    0xA1 ⟨0xA1, "LDA", .IndirectX, 2, 6, false⟩ |>.set!
    0xB1 ⟨0xB1, "LDA", .IndirectY, 2, 5, true⟩ |>.set!
    0xA2 ⟨0xA2, "LDX", .Immediate, 2, 2, false⟩ |>.set!
    0xA6 ⟨0xA6, "LDX", .ZeroPage, 2, 3, false⟩ |>.set!
    0xB6 ⟨0xB6, "LDX", .ZeroPageY, 2, 4, false⟩ |>.set!
    0xAE ⟨0xAE, "LDX", .Absolute, 3, 4, false⟩ |>.set!
    0xBE ⟨0xBE, "LDX", .AbsoluteY, 3, 4, true⟩ |>.set!
    0xA0 ⟨0xA0, "LDY", .Immediate, 2, 2, false⟩ |>.set!
    0xA4 ⟨0xA4, "LDY", .ZeroPage, 2, 3, false⟩ |>.set!
    0xB4 ⟨0xB4, "LDY", .ZeroPageX, 2, 4, false⟩ |>.set!
    0xAC ⟨0xAC, "LDY", .Absolute, 3, 4, false⟩ |>.set!
    0xBC ⟨0xBC, "LDY", .AbsoluteX, 3, 4, true⟩ |>.set!
    0x85 ⟨0x85, "STA", .ZeroPage, 2, 3, false⟩ |>.set!
    0x95 ⟨0x95, "STA", .ZeroPageX, 2, 4, false⟩ |>.set!
    0x8D ⟨0x8D, "STA", .Absolute, 3, 4, false⟩ |>.set!
    0x9D ⟨0x9D, "STA", .AbsoluteX, 3, 5, false⟩ |>.set!
    0x99 ⟨0x99, "STA", .AbsoluteY, 3, 5, false⟩ |>.set!
    0x81 ⟨0x81, "STA", .IndirectX, 2, 6, false⟩ |>.set!
    0x91 ⟨0x91, "STA", .IndirectY, 2, 6, false⟩ |>.set!
    0x86 ⟨0x86, "STX", .ZeroPage, 2, 3, false⟩ |>.set!
    0x96 ⟨0x96, "STX", .ZeroPageY, 2, 4, false⟩ |>.set!
    0x8E ⟨0x8E, "STX", .Absolute, 3, 4, false⟩ |>.set!
    0x84 ⟨0x84, "STY", .ZeroPage, 2, 3, false⟩ |>.set!
    0x94 ⟨0x94, "STY", .ZeroPageX, 2, 4, false⟩ |>.set!
    0x8C ⟨0x8C, "STY", .Absolute, 3, 4, false⟩ |>.set!
    0xAA ⟨0xAA, "TAX", .Implied, 1, 2, false⟩ |>.set!
    0xA8 ⟨0xA8, "TAY", .Implied, 1, 2, false⟩ |>.set!
    0x8A ⟨0x8A, "TXA", .Implied, 1, 2, false⟩ |>.set!
    0x98 ⟨0x98, "TYA", .Implied, 1, 2, false⟩ |>.set!
    0xBA ⟨0xBA, "TSX", .Implied, 1, 2, false⟩ |>.set!
    0x9A ⟨0x9A, "TXS", .Implied, 1, 2, false⟩ |>.set!
    0x48 ⟨0x48, "PHA", .Implied, 1, 3, false⟩ |>.set!
    0x68 ⟨0x68, "PLA", .Implied, 1, 4, false⟩ |>.set!
    0x08 ⟨0x08, "PHP", .Implied, 1, 3, false⟩ |>.set!
    0x28 ⟨0x28, "PLP", .Implied, 1, 4, false⟩ |>.set!
    0x69 ⟨0x69, "ADC", .Immediate, 2, 2, false⟩ |>.set!
    0x65 ⟨0x65, "ADC", .ZeroPage, 2, 3, false⟩ |>.set!
    0x75 ⟨0x75, "ADC", .ZeroPageX, 2, 4, false⟩ |>.set!
    0x6D ⟨0x6D, "ADC", .Absolute, 3, 4, false⟩ |>.set!
    0x7D ⟨0x7D, "ADC", .AbsoluteX, 3, 4, true⟩ |>.set!
    0x79 ⟨0x79, "ADC", .AbsoluteY, 3, 4, true⟩ |>.set!
    0x61 ⟨0x61, "ADC", .IndirectX, 2, 6, false⟩ |>.set!
    0x71 ⟨0x71, "ADC", .IndirectY, 2, 5, true⟩ |>.set!
    0xE9 ⟨0xE9, "SBC", .Immediate, 2, 2, false⟩ |>.set!
    0xE5 ⟨0xE5, "SBC", .ZeroPage, 2, 3, false⟩ |>.set!
    0xF5 ⟨0xF5, "SBC", .ZeroPageX, 2, 4, false⟩ |>.set!
    0xED ⟨0xED, "SBC", .Absolute, 3, 4, false⟩ |>.set!
    0xFD ⟨0xFD, "SBC", .AbsoluteX, 3, 4, true⟩ |>.set!
    0xF9 ⟨0xF9, "SBC", .AbsoluteY, 3, 4, true⟩ |>.set!
    0xE1 ⟨0xE1, "SBC", .IndirectX, 2, 6, false⟩ |>.set!
    0xF1 ⟨0xF1, "SBC", .IndirectY, 2, 5, true⟩ |>.set!
    0xC9 ⟨0xC9, "CMP", .Immediate, 2, 2, false⟩ |>.set!
    0xC5 ⟨0xC5, "CMP", .ZeroPage, 2, 3, false⟩ |>.set!
    0xD5 ⟨0xD5, "CMP", .ZeroPageX, 2, 4, false⟩ |>.set!
    0xCD ⟨0xCD, "CMP", .Absolute, 3, 4, false⟩ |>.set!
    0xDD ⟨0xDD, "CMP", .AbsoluteX, 3, 4, true⟩ |>.set!
    0xD9 ⟨0xD9, "CMP", .AbsoluteY, 3, 4, true⟩ |>.set!
    0xC1 ⟨0xC1, "CMP", .IndirectX, 2, 6, false⟩ |>.set!
    0xD1 ⟨0xD1, "CMP", .IndirectY, 2, 5, true⟩ |>.set!
    0xE0 ⟨0xE0, "CPX", .Immediate, 2, 2, false⟩ |>.set!
    0xE4 ⟨0xE4, "CPX", .ZeroPage, 2, 3, false⟩ |>.set!
    0xEC ⟨0xEC, "CPX", .Absolute, 3, 4, false⟩ |>.set!
    0xC0 ⟨0xC0, "CPY", .Immediate, 2, 2, false⟩ |>.set!
    0xC4 ⟨0xC4, "CPY", .ZeroPage, 2, 3, false⟩ |>.set!
    0xCC ⟨0xCC, "CPY", .Absolute, 3, 4, false⟩ |>.set!
    0x29 ⟨0x29, "AND", .Immediate, 2, 2, false⟩ |>.set!
    0x25 ⟨0x25, "AND", .ZeroPage, 2, 3, false⟩ |>.set!
    0x35 ⟨0x35, "AND", .ZeroPageX, 2, 4, false⟩ |>.set!
    0x2D ⟨0x2D, "AND", .Absolute, 3, 4, false⟩ |>.set!
    0x3D ⟨0x3D, "AND", .AbsoluteX, 3, 4, true⟩ |>.set!
    0x39 ⟨0x39, "AND", .AbsoluteY, 3, 4, true⟩ |>.set!
    0x21 ⟨0x21, "AND", .IndirectX, 2, 6, false⟩ |>.set!
    0x31 ⟨0x31, "AND", .IndirectY, 2, 5, true⟩ |>.set!
    0x09 ⟨0x09, "ORA", .Immediate, 2, 2, false⟩ |>.set!
    0x05 ⟨0x05, "ORA", .ZeroPage, 2, 3, false⟩ |>.set!
    0x15 ⟨0x15, "ORA", .ZeroPageX, 2, 4, false⟩ |>.set!
    0x0D ⟨0x0D, "ORA", .Absolute, 3, 4, false⟩ |>.set!
    0x1D ⟨0x1D, "ORA", .AbsoluteX, 3, 4, true⟩ |>.set!
    0x19 ⟨0x19, "ORA", .AbsoluteY, 3, 4, true⟩ |>.set!
    0x01 ⟨0x01, "ORA", .IndirectX, 2, 6, false⟩ |>.set!
    0x11 ⟨0x11, "ORA", .IndirectY, 2, 5, true⟩ |>.set!
    0x49 ⟨0x49, "EOR", .Immediate, 2, 2, false⟩ |>.set!
    0x45 ⟨0x45, "EOR", .ZeroPage, 2, 3, false⟩ |>.set!
    0x55 ⟨0x55, "EOR", .ZeroPageX, 2, 4, false⟩ |>.set!
    0x4D ⟨0x4D, "EOR", .Absolute, 3, 4, false⟩ |>.set!
    0x5D ⟨0x5D, "EOR", .AbsoluteX, 3, 4, true⟩ |>.set!
    0x59 ⟨0x59, "EOR", .AbsoluteY, 3, 4, true⟩ |>.set!
    0x41 ⟨0x41, "EOR", .IndirectX, 2, 6, false⟩ |>.set!
    0x51 ⟨0x51, "EOR", .IndirectY, 2, 5, true⟩ |>.set!
    0x24 ⟨0x24, "BIT", .ZeroPage, 2, 3, false⟩ |>.set!
    0x2C ⟨0x2C, "BIT", .Absolute, 3, 4, false⟩ |>.set!
    0x0A ⟨0x0A, "ASL", .Accumulator, 1, 2, false⟩ |>.set!
    0x06 ⟨0x06, "ASL", .ZeroPage, 2, 5, false⟩ |>.set!
    0x16 ⟨0x16, "ASL", .ZeroPageX, 2, 6, false⟩ |>.set!
    0x0E ⟨0x0E, "ASL", .Absolute, 3, 6, false⟩ |>.set!
    0x1E ⟨0x1E, "ASL", .AbsoluteX, 3, 7, false⟩ |>.set!
    0x4A ⟨0x4A, "LSR", .Accumulator, 1, 2, false⟩ |>.set!
    0x46 ⟨0x46, "LSR", .ZeroPage, 2, 5, false⟩ |>.set!
    0x56 ⟨0x56, "LSR", .ZeroPageX, 2, 6, false⟩ |>.set!
    0x4E ⟨0x4E, "LSR", .Absolute, 3, 6, false⟩ |>.set!
    0x5E ⟨0x5E, "LSR", .AbsoluteX, 3, 7, false⟩ |>.set!
    0x2A ⟨0x2A, "ROL", .Accumulator, 1, 2, false⟩ |>.set!
    0x26 ⟨0x26, "ROL", .ZeroPage, 2, 5, false⟩ |>.set!
    0x36 ⟨0x36, "ROL", .ZeroPageX, 2, 6, false⟩ |>.set!
    0x2E ⟨0x2E, "ROL", .Absolute, 3, 6, false⟩ |>.set!
    0x3E ⟨0x3E, "ROL", .AbsoluteX, 3, 7, false⟩ |>.set!
    0x6A ⟨0x6A, "ROR", .Accumulator, 1, 2, false⟩ |>.set!
    0x66 ⟨0x66, "ROR", .ZeroPage, 2, 5, false⟩ |>.set!
    0x76 ⟨0x76, "ROR", .ZeroPageX, 2, 6, false⟩ |>.set!
    0x6E ⟨0x6E, "ROR", .Absolute, 3, 6, false⟩ |>.set!
    0x7E ⟨0x7E, "ROR", .AbsoluteX, 3, 7, false⟩ |>.set!
    0xE6 ⟨0xE6, "INC", .ZeroPage, 2, 5, false⟩ |>.set!
    0xF6 ⟨0xF6, "INC", .ZeroPageX, 2, 6, false⟩ |>.set!
    0xEE ⟨0xEE, "INC", .Absolute, 3, 6, false⟩ |>.set!
    0xFE ⟨0xFE, "INC", .AbsoluteX, 3, 7, false⟩ |>.set!
    0xC6 ⟨0xC6, "DEC", .ZeroPage, 2, 5, false⟩ |>.set!
    0xD6 ⟨0xD6, "DEC", .ZeroPageX, 2, 6, false⟩ |>.set!
    0xCE ⟨0xCE, "DEC", .Absolute, 3, 6, false⟩ |>.set!
    0xDE ⟨0xDE, "DEC", .AbsoluteX, 3, 7, false⟩ |>.set!
    0xE8 ⟨0xE8, "INX", .Implied, 1, 2, false⟩ |>.set!
    0xCA ⟨0xCA, "DEX", .Implied, 1, 2, false⟩ |>.set!
    0xC8 ⟨0xC8, "INY", .Implied, 1, 2, false⟩ |>.set!
    0x88 ⟨0x88, "DEY", .Implied, 1, 2, false⟩ |>.set!
    0x4C ⟨0x4C, "JMP", .Absolute, 3, 3, false⟩ |>.set!
    0x6C ⟨0x6C, "JMP", .Indirect, 3, 5, false⟩ |>.set!
    0x20 ⟨0x20, "JSR", .Absolute, 3, 6, false⟩ |>.set!
    0x60 ⟨0x60, "RTS", .Implied, 1, 6, false⟩ |>.set!
    0x00 ⟨0x00, "BRK", .Implied, 1, 7, false⟩ |>.set!
    0x40 ⟨0x40, "RTI", .Implied, 1, 6, false⟩ |>.set!
    0x90 ⟨0x90, "BCC", .Relative, 2, 2, true⟩ |>.set!
    0xB0 ⟨0xB0, "BCS", .Relative, 2, 2, true⟩ |>.set!
    0xF0 ⟨0xF0, "BEQ", .Relative, 2, 2, true⟩ |>.set!
    0xD0 ⟨0xD0, "BNE", .Relative, 2, 2, true⟩ |>.set!
    0x30 ⟨0x30, "BMI", .Relative, 2, 2, true⟩ |>.set!
    0x10 ⟨0x10, "BPL", .Relative, 2, 2, true⟩ |>.set!
    0x50 ⟨0x50, "BVC", .Relative, 2, 2, true⟩ |>.set!
    0x70 ⟨0x70, "BVS", .Relative, 2, 2, true⟩ |>.set!
    0x18 ⟨0x18, "CLC", .Implied, 1, 2, false⟩ |>.set!
    0x38 ⟨0x38, "SEC", .Implied, 1, 2, false⟩ |>.set!
    0x58 ⟨0x58, "CLI", .Implied, 1, 2, false⟩ |>.set!
    0x78 ⟨0x78, "SEI", .Implied, 1, 2, false⟩ |>.set!
    0xD8 ⟨0xD8, "CLD", .Implied, 1, 2, false⟩ |>.set!
    0xF8 ⟨0xF8, "SED", .Implied, 1, 2, false⟩ |>.set!
    0xB8 ⟨0xB8, "CLV", .Implied, 1, 2, false⟩ |>.set!
    0xEA ⟨0xEA, "NOP", .Implied, 1, 2, false⟩)

/-- src/instructions/mod.rs `static OPCODES`. -/
def OPCODES : Array Opcode := create_opcode_table

/-- src/instructions/mod.rs `get_opcode`: `&OPCODES[code as usize]` for a
`u8` code. -/
def get_opcode (code : Nat) : Opcode := (OPCODES.getD (code % 256) illegalOpcode)

/-- Modelled from the spec: the Indirect-mode effective-address resolution
lives in src/cpu.rs, which is absent from the sources.  Spec §4.2:
`addr = bus[ptr] | (bus[(ptr & 0xFF00) | ((ptr+1) & 0x00FF)] << 8)`, the
NMOS page-wrap bug. -/
def indirectTarget (m : Nat → Nat) (ptr : Nat) : Nat :=
  m ptr ||| ((m ((ptr &&& 0xFF00) ||| ((ptr + 1) &&& 0x00FF))) <<< 8)

/-- Modelled from the spec: the fetch/decode/execute loop lives in
src/cpu.rs, which is absent from the sources.  Spec §4.4: read the opcode
at PC and advance PC, look up the table entry, resolve the operand
advancing PC by the operand length, dispatch, and accumulate the base
cycles.  Only the flow-control opcodes exercised by the claims are
dispatched; every other entry leaves the registers unchanged, as the
illegal/NOP fallback does. -/
def Cpu.execute_instruction (s : Cpu) : Cpu :=
  let op := s.mem s.pc
  let entry := get_opcode op
  let s1 := { s with pc := (s.pc + 1) % 65536, cycles := s.cycles + entry.cycles }
  match entry.mnemonic, entry.mode with
  | "JMP", AddressingMode.Absolute =>
    let addr := readWord s1.mem s1.pc
    ({ s1 with pc := (s1.pc + 2) % 65536 }).jmp addr
  | "JMP", AddressingMode.Indirect =>
    let ptr := readWord s1.mem s1.pc
    ({ s1 with pc := (s1.pc + 2) % 65536 }).jmp (indirectTarget s1.mem ptr)
  | "JSR", _ =>
    let addr := readWord s1.mem s1.pc
    ({ s1 with pc := (s1.pc + 2) % 65536 }).jsr addr
  | "RTS", _ => s1.rts
  | "BRK", _ => s1.brk
  | "RTI", _ => s1.rti
  | _, _ => s1

theorem shiftLeft8_or_eq_add (h l : Nat) (hl : l < 256) :
    (h <<< 8) ||| l = h * 256 + l := by
  apply Nat.eq_of_testBit_eq
  intro i
  rcases Nat.lt_or_ge i 8 with hi | hi
  · have h1 : ¬ (i ≥ 8) := by omega
    rw [Nat.testBit_or, Nat.testBit_shiftLeft, decide_eq_false h1]
    simp only [Bool.false_and, Bool.false_or]
    rw [Nat.testBit_to_div_mod, Nat.testBit_to_div_mod, decide_eq_decide]
    interval_cases i <;> omega
  · obtain ⟨j, rfl⟩ : ∃ j, i = 8 + j := ⟨i - 8, by omega⟩
    have h1 : (8 + j ≥ 8) := by omega
    have h256 : (2 : Nat) ^ 8 ≤ 2 ^ (8 + j) := Nat.pow_le_pow_right (by omega) (by omega)
    have hl8 : l.testBit (8 + j) = false := by
      apply Nat.testBit_lt_two_pow
      have he : (256 : Nat) = 2 ^ 8 := by norm_num
      omega
    have hd : (h * 256 + l).testBit (8 + j) = ((h * 256 + l) >>> 8).testBit j :=
      (Nat.testBit_shiftRight _).symm
    have hq : (h * 256 + l) >>> 8 = h := by
      rw [Nat.shiftRight_eq_div_pow]
      norm_num
      omega
    rw [Nat.testBit_or, Nat.testBit_shiftLeft, decide_eq_true h1, hl8, hd, hq]
    simp only [Bool.true_and, Bool.or_false]
    congr 1
    omega

theorem and_ff (x : Nat) : x &&& 0xFF = x % 256 := by
  have h := Nat.and_pow_two_sub_one_eq_mod x 8
  norm_num at h
  exact h

theorem and_ff00 (x : Nat) : x &&& 0xFF00 = x / 256 % 256 * 256 := by
  have h : x / 256 % 256 * 256 = ((x >>> 8) % 2 ^ 8) <<< 8 := by
    rw [Nat.shiftLeft_eq, Nat.shiftRight_eq_div_pow]
    norm_num
  rw [h]
  apply Nat.eq_of_testBit_eq
  intro i
  rw [Nat.testBit_and, Nat.testBit_shiftLeft, Nat.testBit_mod_two_pow,
      show (0xFF00 : Nat) = 255 <<< 8 from rfl, Nat.testBit_shiftLeft,
      Nat.testBit_shiftRight,
      show (255 : Nat) = 2 ^ 8 - 1 from rfl, Nat.testBit_two_pow_sub_one]
  by_cases h8 : i ≥ 8
  · have he : 8 + (i - 8) = i := by omega
    by_cases h16 : i - 8 < 8 <;> simp [h8, h16, he]
  · simp [h8]

theorem plp_mask_bits (v i : Nat) (hi : i < 8) :
    ((v &&& 0xEF) ||| 0x20).testBit i =
      (if i = 4 then false else if i = 5 then true else v.testBit i) := by
  rw [Nat.testBit_or, Nat.testBit_and]
  interval_cases i <;> norm_num [Nat.testBit_to_div_mod]

theorem and_top_bit_ne_zero (x : Nat) : (x &&& 0x80 ≠ 0) ↔ x.testBit 7 = true := by
  rw [show (0x80 : Nat) = 2 ^ 7 from rfl, Nat.and_two_pow]
  cases h : x.testBit 7 <;> simp [h]

theorem overflow_bit_iff (a v r : Nat) :
    ((a ^^^ r) &&& (v ^^^ r) &&& 0x80 ≠ 0) ↔
      (a.testBit 7 = v.testBit 7 ∧ ¬ (a.testBit 7 = r.testBit 7)) := by
  rw [and_top_bit_ne_zero, Nat.testBit_and, Nat.testBit_xor, Nat.testBit_xor]
  cases ha : a.testBit 7 <;> cases hv : v.testBit 7 <;> cases hr : r.testBit 7 <;> simp

/-- All-zero memory, used by the concrete scenarios. -/
def zeroMem : Nat → Nat := fun _ => 0

/-- A state right after reset (`P = 0b00110100`, `SP = 0xFD`) sitting at
`PC = 0x8000` over zeroed memory. -/
def postResetCpu : Cpu := ⟨0, 0, 0, 0xFD, 0x8000, ⟨0x34⟩, 7, zeroMem⟩

/-- Claim C1, counterexample: at a state whose B flag is set (e.g. right
after reset) and 0x00 at the top of the stack, PLP does not leave bit 4 of
`P` at its pre-PLP value: the code clears it. -/
theorem c1_plp_break_not_retained :
    (postResetCpu.plp).status.get Flag.Break ≠ postResetCpu.status.get Flag.Break := by
  decide

/-- Claim C1 (amended): for every CPU state with byte v at the top of the
stack, PLP installs v into P except that bit 4 (B) of P after PLP is 0
(the pulled bit 4 is discarded and B is cleared, regardless of its previous
value) and bit 5 (Unused) is forced to 1; the other six bits of P equal the
corresponding bits of v. -/
theorem c1_plp_amended (s : Cpu) :
    ((s.plp).status.get Flag.Break = false) ∧
    ((s.plp).status.get Flag.Unused = true) ∧
    (∀ f : Flag, f ≠ Flag.Break → f ≠ Flag.Unused →
      (s.plp).status.get f = (s.mem (0x100 + (s.sp + 1) % 256)).testBit f.bit) ∧
    (s.plp).sp = (s.sp + 1) % 256 ∧
    (s.plp).a = s.a ∧ (s.plp).x = s.x ∧ (s.plp).y = s.y ∧ (s.plp).pc = s.pc := by
  refine ⟨?_, ?_, ?_, rfl, rfl, rfl, rfl, rfl⟩
  · rw [show (s.plp).status.get Flag.Break =
      ((s.mem (0x100 + (s.sp + 1) % 256) &&& 0xEF) ||| 0x20).testBit 4 from
        StatusRegister.get_eq_testBit _ _]
    rw [plp_mask_bits _ 4 (by omega)]
    simp
  · rw [show (s.plp).status.get Flag.Unused =
      ((s.mem (0x100 + (s.sp + 1) % 256) &&& 0xEF) ||| 0x20).testBit 5 from
        StatusRegister.get_eq_testBit _ _]
    rw [plp_mask_bits _ 5 (by omega)]
    simp
  · intro f hb hu
    rw [show (s.plp).status.get f =
      ((s.mem (0x100 + (s.sp + 1) % 256) &&& 0xEF) ||| 0x20).testBit f.bit from
        StatusRegister.get_eq_testBit _ _]
    rw [plp_mask_bits _ f.bit f.bit_lt]
    have h4 : f.bit ≠ 4 := fun hc => hb (Flag.bit_inj hc)
    have h5 : f.bit ≠ 5 := fun hc => hu (Flag.bit_inj hc)
    simp [h4, h5]

/-- Claim C2: for A, M in [0,255] and carry-in C, ADC sets the accumulator
to `(A + M + C) mod 256`, carry iff the 16-bit sum exceeds 255, overflow iff
A and M share a sign bit that differs from the result's sign bit, Z iff the
new accumulator is zero and N iff its bit 7 is set. -/
theorem c2_adc_correct (s : Cpu) (value : Nat) (_ha : s.a < 256) (_hv : value < 256) :
    (s.adc value).a = (s.a + value + (if s.status.get Flag.Carry then 1 else 0)) % 256 ∧
    ((s.adc value).status.get Flag.Carry = true ↔
      255 < s.a + value + (if s.status.get Flag.Carry then 1 else 0)) ∧
    ((s.adc value).status.get Flag.Overflow = true ↔
      (s.a.testBit 7 = value.testBit 7 ∧ ¬ (s.a.testBit 7 = (s.adc value).a.testBit 7))) ∧
    ((s.adc value).status.get Flag.Zero = true ↔ (s.adc value).a = 0) ∧
    ((s.adc value).status.get Flag.Negative = true ↔ (s.adc value).a.testBit 7 = true) := by
  refine ⟨rfl, ?_, ?_, ?_, ?_⟩
  · simp only [Cpu.adc, StatusRegister.update_zero_negative, StatusRegister.get_set]
    simp
  · simp only [Cpu.adc, StatusRegister.update_zero_negative, StatusRegister.get_set]
    simp only [show (Flag.Overflow = Flag.Negative) = False by simp,
      show (Flag.Overflow = Flag.Zero) = False by simp,
      show (Flag.Overflow = Flag.Overflow) = True by simp, if_false, if_true,
      ite_false, ite_true]
    rw [bne_iff_ne]
    exact overflow_bit_iff _ _ _
  · simp only [Cpu.adc, StatusRegister.update_zero_negative, StatusRegister.get_set]
    simp
  · simp only [Cpu.adc, StatusRegister.update_zero_negative, StatusRegister.get_set]
    simp only [show (Flag.Negative = Flag.Negative) = True by simp, ite_true]
    rw [bne_iff_ne]
    exact and_top_bit_ne_zero _

/-- A CPU at the ADC overflow boundary of spec §8 scenario 4:
`A = 0x7F`, carry clear. -/
def adcCpu : Cpu := ⟨0x7F, 0, 0, 0xFD, 0x8000, ⟨0x34⟩, 7, zeroMem⟩

theorem c2_adc_correct_witness :
    (adcCpu.adc 0x01).status.get Flag.Overflow = true :=
  ((c2_adc_correct adcCpu 0x01 (by decide) (by decide)).2.2.1).mpr (by decide)

theorem testBit_16 (i : Nat) (hi : i < 8) : Nat.testBit 16 i = decide (i = 4) := by
  interval_cases i <;> decide

/-- Claim C3, counterexample: starting from a post-reset state (whose B flag
is set), BRK immediately followed by RTI does not return B to its pre-BRK
value: the RTI mask clears it. -/
theorem c3_brk_rti_break_not_retained :
    ((postResetCpu.brk).rti).status.get Flag.Break ≠ postResetCpu.status.get Flag.Break := by
  decide

/-- Claim C3 (amended): executing BRK at PC0 and RTI immediately afterwards
returns to `PC0 + 2`, restores the stack pointer, and restores every status
flag except bit 4 (B), which is cleared by RTI regardless of its pre-BRK
value, and bit 5 (Unused), which is forced to 1. -/
theorem c3_brk_rti_roundtrip (s : Cpu) (PC0 : Nat)
    (hsp : s.sp < 256) (hpc : s.pc = (PC0 + 1) % 65536) :
    ((s.brk).rti).pc = (PC0 + 2) % 65536 ∧
    ((s.brk).rti).sp = s.sp ∧
    ((s.brk).rti).status.get Flag.Break = false ∧
    ((s.brk).rti).status.get Flag.Unused = true ∧
    (∀ f : Flag, f ≠ Flag.Break → f ≠ Flag.Unused →
      ((s.brk).rti).status.get f = s.status.get f) := by
  refine ⟨?_, ?_, ?_, ?_, ?_⟩
  · simp only [Cpu.brk, Cpu.rti, Cpu.push_word, Cpu.push_byte, Cpu.pull_byte,
      Cpu.pull_word, memWrite, StatusRegister.to_byte, StatusRegister.from_byte]
    split_ifs <;> try omega
    rw [shiftLeft8_or_eq_add _ _ (by omega)]
    omega
  · simp only [Cpu.brk, Cpu.rti, Cpu.push_word, Cpu.push_byte, Cpu.pull_byte,
      Cpu.pull_word, memWrite, StatusRegister.to_byte, StatusRegister.from_byte]
    omega
  · simp only [Cpu.brk, Cpu.rti, Cpu.push_word, Cpu.push_byte, Cpu.pull_byte,
      Cpu.pull_word, memWrite, StatusRegister.to_byte, StatusRegister.from_byte]
    split_ifs <;> try omega
    rw [StatusRegister.get_eq_testBit]
    simp only [Flag.bit]
    rw [plp_mask_bits _ 4 (by omega)]
    simp
  · simp only [Cpu.brk, Cpu.rti, Cpu.push_word, Cpu.push_byte, Cpu.pull_byte,
      Cpu.pull_word, memWrite, StatusRegister.to_byte, StatusRegister.from_byte]
    split_ifs <;> try omega
    rw [StatusRegister.get_eq_testBit]
    simp only [Flag.bit]
    rw [plp_mask_bits _ 5 (by omega)]
    simp
  · intro f hb hu
    have h4 : f.bit ≠ 4 := fun hc => hb (Flag.bit_inj hc)
    have h5 : f.bit ≠ 5 := fun hc => hu (Flag.bit_inj hc)
    simp only [Cpu.brk, Cpu.rti, Cpu.push_word, Cpu.push_byte, Cpu.pull_byte,
      Cpu.pull_word, memWrite, StatusRegister.to_byte, StatusRegister.from_byte]
    split_ifs <;> try omega
    rw [StatusRegister.get_eq_testBit, StatusRegister.get_eq_testBit]
    rw [plp_mask_bits _ f.bit f.bit_lt]
    rw [if_neg h4, if_neg h5, Nat.testBit_or, testBit_16 f.bit f.bit_lt]
    simp [h4]

/-- A state with `P = 0x34` whose B flag is set, one BRK deep; used to apply
`c3_brk_rti_roundtrip` at PC0 = 0x8000. -/
def brkCpu : Cpu := ⟨0, 0, 0, 0xFD, 0x8001, ⟨0x34⟩, 7, zeroMem⟩

theorem c3_brk_rti_roundtrip_witness :
    ((brkCpu.brk).rti).pc = 0x8002 ∧ ((brkCpu.brk).rti).sp = 0xFD :=
  ⟨(c3_brk_rti_roundtrip brkCpu 0x8000 (by decide) (by decide)).1,
   (c3_brk_rti_roundtrip brkCpu 0x8000 (by decide) (by decide)).2.1⟩

/-- Memory for spec §8 scenario 2: `[0x10FF]=0x34`, `[0x1000]=0x12`,
program `6C FF 10` at 0x8000, reset vector 0x8000. -/
def c4mem : Nat → Nat := fun a =>
  if a = 0x10FF then 0x34 else if a = 0x1000 then 0x12
  else if a = 0x8000 then 0x6C else if a = 0x8001 then 0xFF
  else if a = 0x8002 then 0x10
  else if a = 0xFFFC then 0x00 else if a = 0xFFFD then 0x80 else 0

/-- A fresh CPU over `c4mem` (registers zero, reset not yet performed). -/
def c4cpu : Cpu := ⟨0, 0, 0, 0, 0, ⟨0⟩, 0, c4mem⟩

/-- Claim C4: the indirect-JMP target's low byte is read from `bus[ptr]` and
its high byte from `(ptr & 0xFF00) | ((ptr+1) & 0x00FF)`; for `ptr = $xxFF`
the high byte comes from `$xx00` of the same page.  The last conjunct runs
spec §8 scenario 2 through the fetch/decode pipeline: `JMP ($10FF)` lands on
`PC = 0x1234`, not on a target read from `0x1100`. -/
theorem c4_jmp_indirect_page_wrap (m : Nat → Nat) (hm : ∀ a, m a < 256)
    (ptr : Nat) (hp : ptr < 65536) :
    (indirectTarget m ptr =
      256 * m (ptr / 256 * 256 + (ptr + 1) % 256) + m ptr) ∧
    (ptr % 256 = 255 → indirectTarget m ptr = 256 * m (ptr - 255) + m ptr) ∧
    ((c4cpu.reset).execute_instruction).pc = 0x1234 := by
  have haddr : (ptr &&& 0xFF00) ||| ((ptr + 1) &&& 0xFF) =
      ptr / 256 * 256 + (ptr + 1) % 256 := by
    have hq : ptr / 256 % 256 = ptr / 256 := Nat.mod_eq_of_lt (by omega)
    rw [and_ff00, and_ff, hq,
      ← shiftLeft8_or_eq_add (ptr / 256) ((ptr + 1) % 256) (by omega)]
    rw [Nat.shiftLeft_eq]
  have hmain : indirectTarget m ptr =
      256 * m (ptr / 256 * 256 + (ptr + 1) % 256) + m ptr := by
    rw [indirectTarget, haddr, Nat.lor_comm,
      shiftLeft8_or_eq_add _ _ (hm ptr)]
    ring
  refine ⟨hmain, ?_, by decide⟩
  intro hff
  have harg : ptr / 256 * 256 + (ptr + 1) % 256 = ptr - 255 := by omega
  rw [hmain, harg]

theorem c4_jmp_indirect_page_wrap_witness :
    indirectTarget c4mem 0x10FF = 256 * c4mem (0x10FF - 255) + c4mem 0x10FF :=
  (c4_jmp_indirect_page_wrap c4mem
    (fun a => by unfold c4mem; split_ifs <;> omega) 0x10FF (by decide)).2.1 (by decide)

/-- Memory for spec §8 scenario 3: `JSR $8010` at 0x8000, `RTS` at 0x8010,
reset vector 0x8000. -/
def c5mem : Nat → Nat := fun a =>
  if a = 0x8000 then 0x20 else if a = 0x8001 then 0x10
  else if a = 0x8002 then 0x80 else if a = 0x8010 then 0x60
  else if a = 0xFFFC then 0x00 else if a = 0xFFFD then 0x80 else 0

/-- A fresh CPU over `c5mem`. -/
def c5cpu : Cpu := ⟨0, 0, 0, 0, 0, ⟨0⟩, 0, c5mem⟩

/-- Claim C5: executing JSR (with the PC already advanced to the byte after
the 3-byte instruction, i.e. `a + 3`) followed by RTS restores the PC to
`a + 3` and the stack pointer to its pre-JSR value.  The closed conjuncts
run spec §8 scenario 3 through the pipeline: after `JSR $8010` at 0x8000 and
the `RTS` at 0x8010, `PC = 0x8003` and `SP` is back at the post-reset 0xFD. -/
theorem c5_jsr_rts_roundtrip (s : Cpu) (address : Nat)
    (hpc : s.pc < 65536) (hsp : s.sp < 256) :
    ((s.jsr address).rts).pc = s.pc ∧
    ((s.jsr address).rts).sp = s.sp ∧
    (((c5cpu.reset).execute_instruction).execute_instruction).pc = 0x8003 ∧
    (((c5cpu.reset).execute_instruction).execute_instruction).sp = 0xFD := by
  refine ⟨?_, ?_, by decide, by decide⟩
  · simp only [Cpu.jsr, Cpu.rts, Cpu.push_word, Cpu.push_byte, Cpu.pull_byte,
      Cpu.pull_word, Cpu.jmp, memWrite]
    split_ifs <;> try omega
    rw [shiftLeft8_or_eq_add _ _ (by omega)]
    omega
  · simp only [Cpu.jsr, Cpu.rts, Cpu.push_word, Cpu.push_byte, Cpu.pull_byte,
      Cpu.pull_word, Cpu.jmp, memWrite]
    omega

/-- A state as the execution engine would present it to the JSR handler at
spec §8 scenario 3: PC already at `0x8003`. -/
def jsrCpu : Cpu := ⟨0, 0, 0, 0xFD, 0x8003, ⟨0x34⟩, 7, zeroMem⟩

theorem c5_jsr_rts_roundtrip_witness :
    ((jsrCpu.jsr 0x8010).rts).pc = 0x8003 ∧ ((jsrCpu.jsr 0x8010).rts).sp = 0xFD :=
  ⟨(c5_jsr_rts_roundtrip jsrCpu 0x8010 (by decide) (by decide)).1,
   (c5_jsr_rts_roundtrip jsrCpu 0x8010 (by decide) (by decide)).2.1⟩

/-- A CPU whose registers are all zero, over zeroed memory. -/
def zeroCpu : Cpu := ⟨0, 0, 0, 0, 0, ⟨0⟩, 0, zeroMem⟩

/-- Claim C6, counterexample: after `reset()` the Break flag reads as 1
(`StatusRegister::INITIAL_VALUE = 0b00110100` has bit 4 set), not 0. -/
theorem c6_reset_break_set : (zeroCpu.reset).status.get Flag.Break = true := by
  decide

/-- Claim C6 (amended): after `reset()`, PC holds the little-endian word at
`0xFFFC/0xFFFD`, `SP = 0xFD`, `A = X = Y = 0`, `cycles = 7`, and the status
register has exactly the I, Unused and Break bits set — `P = 0b00110100` —
with every other bit clear. -/
theorem c6_reset_state (s : Cpu) (hlo : s.mem 0xFFFC < 256) :
    (s.reset).pc = 256 * s.mem 0xFFFD + s.mem 0xFFFC ∧
    (s.reset).sp = 0xFD ∧
    (s.reset).a = 0 ∧ (s.reset).x = 0 ∧ (s.reset).y = 0 ∧
    (s.reset).cycles = 7 ∧
    (s.reset).status.get Flag.InterruptDisable = true ∧
    (s.reset).status.get Flag.Unused = true ∧
    (s.reset).status.get Flag.Break = true ∧
    (s.reset).status.get Flag.Carry = false ∧
    (s.reset).status.get Flag.Zero = false ∧
    (s.reset).status.get Flag.DecimalMode = false ∧
    (s.reset).status.get Flag.Overflow = false ∧
    (s.reset).status.get Flag.Negative = false := by
  refine ⟨?_, rfl, rfl, rfl, rfl, rfl, ?_, ?_, ?_, ?_, ?_, ?_, ?_, ?_⟩
  · show readWord s.mem 0xFFFC = _
    rw [readWord]
    rw [show (0xFFFC + 1) % 65536 = 0xFFFD from by norm_num]
    rw [shiftLeft8_or_eq_add _ _ hlo]
    ring
  · show StatusRegister.new.get Flag.InterruptDisable = true
    decide
  · show StatusRegister.new.get Flag.Unused = true
    decide
  · show StatusRegister.new.get Flag.Break = true
    decide
  · show StatusRegister.new.get Flag.Carry = false
    decide
  · show StatusRegister.new.get Flag.Zero = false
    decide
  · show StatusRegister.new.get Flag.DecimalMode = false
    decide
  · show StatusRegister.new.get Flag.Overflow = false
    decide
  · show StatusRegister.new.get Flag.Negative = false
    decide

theorem c6_reset_state_witness : (c4cpu.reset).pc = 0x8000 ∧ (c4cpu.reset).sp = 0xFD :=
  ⟨(c6_reset_state c4cpu (by decide)).1, (c6_reset_state c4cpu (by decide)).2.1⟩

/-- A CPU at spec §8 scenario 5: PC already past the BEQ operand at
`0x80FF`, Z flag set (`P = 0x36`). -/
def branchCpu : Cpu := ⟨0, 0, 0, 0xFD, 0x80FF, ⟨0x36⟩, 7, zeroMem⟩

/-- Claim C7: a branch whose condition is false changes nothing and adds 0
extra cycles; a taken branch adds the sign-extended offset to the PC with
two's-complement wrap in 16 bits and accrues +1 extra cycle, plus +1 more
exactly when the high byte of the new PC differs from the high byte of the
PC before the addition; each of the eight branch instructions feeds
`branch` the condition of its named flag. -/
theorem c7_branch_semantics (s : Cpu) (offset : Nat)
    (hpc : s.pc < 65536) (ho : offset < 256) :
    (s.branch false offset = (s, 0)) ∧
    (((s.branch true offset).1.pc : Int) =
      ((s.pc : Int) + (if offset < 128 then (offset : Int) else (offset : Int) - 256)) % 65536) ∧
    ((s.branch true offset).2 =
      1 + (if (s.branch true offset).1.pc / 256 = s.pc / 256 then 0 else 1)) ∧
    (s.bcc offset = s.branch (!(s.status.get Flag.Carry)) offset) ∧
    (s.bcs offset = s.branch (s.status.get Flag.Carry) offset) ∧
    (s.beq offset = s.branch (s.status.get Flag.Zero) offset) ∧
    (s.bne offset = s.branch (!(s.status.get Flag.Zero)) offset) ∧
    (s.bmi offset = s.branch (s.status.get Flag.Negative) offset) ∧
    (s.bpl offset = s.branch (!(s.status.get Flag.Negative)) offset) ∧
    (s.bvc offset = s.branch (!(s.status.get Flag.Overflow)) offset) ∧
    (s.bvs offset = s.branch (s.status.get Flag.Overflow) offset) := by
  refine ⟨rfl, ?_, ?_, rfl, rfl, rfl, rfl, rfl, rfl, rfl, rfl⟩
  · simp only [Cpu.branch, if_true]
    split_ifs with h <;> push_cast <;> omega
  · simp only [Cpu.branch, if_true]
    rw [and_ff00, and_ff00]
    split_ifs <;> omega

theorem c7_branch_semantics_witness :
    ((branchCpu.branch true 5).1.pc : Int) = ((branchCpu.pc : Int) + 5) % 65536 := by
  have h := (c7_branch_semantics branchCpu 5 (by decide) (by decide)).2.1
  simpa using h

/-- Claim C8: every opcode-table entry has `bytes` in {1,2,3} and
`bytes = 1 + operand_bytes(mode)`. -/
theorem c8_opcode_bytes_consistent :
    ∀ op : Fin 256,
      ((get_opcode op.val).bytes = 1 ∨ (get_opcode op.val).bytes = 2 ∨
        (get_opcode op.val).bytes = 3) ∧
      (get_opcode op.val).bytes = 1 + (get_opcode op.val).mode.operand_bytes := by
  decide

theorem rolror_vals : ∀ a < 256, ∀ c : Bool,
    ((((a <<< 1) % 256 ||| (if c then 1 else 0)) >>> 1) |||
      (if (a &&& 0x80) != 0 then 0x80 else 0) = a) ∧
    (((((a <<< 1) % 256 ||| (if c then 1 else 0)) &&& 0x01) != 0) = c) := by
  decide

theorem rorrol_vals : ∀ a < 256, ∀ c : Bool,
    (((((a >>> 1) ||| (if c then 0x80 else 0)) <<< 1) % 256 |||
      (if (a &&& 0x01) != 0 then 1 else 0)) = a) ∧
    (((((a >>> 1) ||| (if c then 0x80 else 0)) &&& 0x80) != 0) = c) := by
  decide

/-- Claim C9: ROL (accumulator) followed by ROR (accumulator) restores both
the accumulator and the carry flag, and symmetrically ROR then ROL; the
rotations through carry are mutual inverses given the carry threaded between
them. -/
theorem c9_rol_ror_inverses (s : Cpu) (ha : s.a < 256) :
    (((s.rol_acc).ror_acc).a = s.a ∧
     ((s.rol_acc).ror_acc).status.get Flag.Carry = s.status.get Flag.Carry) ∧
    (((s.ror_acc).rol_acc).a = s.a ∧
     ((s.ror_acc).rol_acc).status.get Flag.Carry = s.status.get Flag.Carry) := by
  have h1 := rolror_vals s.a ha (s.status.get Flag.Carry)
  have h2 := rorrol_vals s.a ha (s.status.get Flag.Carry)
  constructor
  · constructor
    · show ((((s.a <<< 1) % 256 ||| _) >>> 1) ||| _) = s.a
      simp only [Cpu.rol_acc, Cpu.ror_acc, StatusRegister.update_zero_negative,
        StatusRegister.get_set]
      simp only [show (Flag.Carry = Flag.Negative) = False by simp,
        show (Flag.Carry = Flag.Zero) = False by simp, ite_false, ite_true,
        if_pos rfl]
      exact h1.1
    · simp only [Cpu.rol_acc, Cpu.ror_acc, StatusRegister.update_zero_negative,
        StatusRegister.get_set]
      simp only [show (Flag.Carry = Flag.Negative) = False by simp,
        show (Flag.Carry = Flag.Zero) = False by simp, ite_false, ite_true,
        if_pos rfl]
      exact h1.2
  · constructor
    · simp only [Cpu.rol_acc, Cpu.ror_acc, StatusRegister.update_zero_negative,
        StatusRegister.get_set]
      simp only [show (Flag.Carry = Flag.Negative) = False by simp,
        show (Flag.Carry = Flag.Zero) = False by simp, ite_false, ite_true,
        if_pos rfl]
      exact h2.1
    · simp only [Cpu.rol_acc, Cpu.ror_acc, StatusRegister.update_zero_negative,
        StatusRegister.get_set]
      simp only [show (Flag.Carry = Flag.Negative) = False by simp,
        show (Flag.Carry = Flag.Zero) = False by simp, ite_false, ite_true,
        if_pos rfl]
      exact h2.2

theorem c9_rol_ror_inverses_witness :
    ((adcCpu.rol_acc).ror_acc).a = adcCpu.a :=
  (c9_rol_ror_inverses adcCpu (by decide)).1.1

/-- Claim C10: every legal entry's `code` field equals its table index,
while all 105 illegal entries (mnemonic `"???"`) carry `code = 0x00`,
so `code` does not round-trip with the index on illegal opcodes. -/
theorem c10_opcode_codes :
    (∀ op : Fin 256,
      ((get_opcode op.val).mnemonic ≠ "???" → (get_opcode op.val).code = op.val) ∧
      ((get_opcode op.val).mnemonic = "???" → (get_opcode op.val).code = 0)) ∧
    ((List.range 256).countP (fun b => (get_opcode b).mnemonic == "???") = 105) ∧
    (∃ op : Fin 256,
      (get_opcode op.val).mnemonic = "???" ∧ (get_opcode op.val).code ≠ op.val) := by
  refine ⟨by decide, by decide, ⟨⟨2, by omega⟩, by decide, by decide⟩⟩

end Mos6502
